import Mathlib

/-!
Verification of the wheelie helm reconciler.

The Go sources are embedded shallowly: the helm client (chart loading, value
serialization, release reads, install/upgrade/delete, manifest parsing and
diffing) is an environment of response functions, and each reconciliation
function is a pure function of the `Wheelie` struct and the environment that
returns its Go result together with the trace of backend calls it makes.
-/

/-- Opaque chart contents produced by `chartutil.Load`. -/
abbrev Chart := String

/-- Serialized configuration values produced by `json.Marshal(w.Values)`. -/
abbrev RawVals := String

/-- A Go error, carried as its message text. -/
abbrev GoErr := String

/-- Opaque parsed-manifest collection (`map[string]*manifest.MappingResult`). -/
abbrev Manifests := String

/-- The `map[string]interface{}` of configuration values; opaque contents. -/
abbrev ValuesMap := List (String × String)

/-- Lifecycle status codes of a helm release (`hapi/release.Status_*`). -/
inductive ReleaseStatus where
  | unknown
  | deployed
  | deleted
  | superseded
  | failed
  | deleting
  | pendingInstall
  | pendingUpgrade
  | pendingRollback
deriving DecidableEq, Repr

/-- The fields of `release.Info` used by the reconciler. -/
structure ReleaseInfo where
  description : String
  status : ReleaseStatus
deriving DecidableEq, Repr

/-- The fields of a `release.Release` used by the reconciler. -/
structure Release where
  info : ReleaseInfo
  manifest : String
  nspace : String
deriving DecidableEq, Repr

/-- Response carrying a release, as returned by content/install/update calls. -/
structure ReleaseResponse where
  release : Release
deriving DecidableEq, Repr

/-- Arguments of `client.InstallReleaseFromChart` as passed by wheelie. -/
structure InstallArgs where
  chart : Chart
  ns : String
  rawVals : RawVals
  rlsName : String
  disableHooks : Bool
  disableCRDHook : Bool
  timeout : Int
  wait : Bool
deriving DecidableEq, Repr

/-- Arguments of `client.UpdateRelease` as passed by wheelie; option fields
not passed at a call site keep their Go zero value. -/
structure UpdateArgs where
  rlsName : String
  chartPath : String
  rawVals : RawVals
  disableHooks : Bool
  timeout : Int
  wait : Bool
  dryRun : Bool
  force : Bool
deriving DecidableEq, Repr

/-- Arguments of `client.DeleteRelease` as passed by wheelie. -/
structure DeleteArgs where
  rlsName : String
  disableHooks : Bool
  purge : Bool
  timeout : Int
deriving DecidableEq, Repr

/-- One backend interaction performed by a reconciliation call. -/
inductive HelmCall where
  | releaseContent (rlsName : String)
  | install (args : InstallArgs)
  | update (args : UpdateArgs)
  | delete (args : DeleteArgs)
deriving DecidableEq, Repr

/-- The helm client and external libraries, as an oracle of responses. -/
structure HelmEnv where
  chartLoad : String → Except GoErr Chart
  marshalValues : Option ValuesMap → Except GoErr RawVals
  releaseContent : String → Except GoErr ReleaseResponse
  installReleaseFromChart : InstallArgs → Except GoErr ReleaseResponse
  updateRelease : UpdateArgs → Except GoErr ReleaseResponse
  deleteRelease : DeleteArgs → Except GoErr Unit
  parse : String → String → Manifests
  parseRelease : Release → Manifests
  diffManifests : Manifests → Manifests → Bool

/-- The `Wheelie` struct. `Values` is `Option`al because a Go map may be nil. -/
structure Wheelie where
  Kubeconfig : String
  KubeContext : String
  Chart : String
  ChartVersion : String
  Values : Option ValuesMap
  NoHooks : Bool
  NoCRDHook : Bool
  Timeout : Int
  Release : String
  Namespace : String
  Wait : Bool
  TillerNamespace : String
  TillerHost : String
  TillerTimeout : Int
deriving DecidableEq, Repr

/-- Test that `pat` begins `s` (char-list version of `strings.HasPrefix`). -/
def isPre : List Char → List Char → Bool
  | [], _ => true
  | _ :: _, [] => false
  | a :: as, b :: bs => a == b && isPre as bs

/-- Test that `pat` occurs contiguously in `s` (char-list form of `strings.Contains`). -/
def containsSub (pat : List Char) : List Char → Bool
  | [] => pat.isEmpty
  | c :: rest => isPre pat (c :: rest) || containsSub pat rest

/-- Go `strings.Contains(s, pat)`. -/
def strContains (s pat : String) : Bool :=
  containsSub pat.toList s.toList

/-- Message of `storageerrors.ErrReleaseNotFound(name)`:
`release: "name" not found`. -/
def errReleaseNotFound (name : String) : String :=
  "release: \"" ++ name ++ "\" not found"

/-- The install call built at wheelie.go:89-97. -/
def installArgs (w : Wheelie) (chart : Chart) (rawVals : RawVals) : InstallArgs :=
  { chart := chart
    ns := w.Namespace
    rawVals := rawVals
    rlsName := w.Release
    disableHooks := w.NoHooks
    disableCRDHook := w.NoCRDHook
    timeout := w.Timeout
    wait := w.Wait }

/-- The forced-upgrade call built at wheelie.go:105-112. -/
def forceUpgradeArgs (w : Wheelie) (rawVals : RawVals) : UpdateArgs :=
  { rlsName := w.Release
    chartPath := w.Chart
    rawVals := rawVals
    disableHooks := w.NoHooks
    timeout := w.Timeout
    wait := w.Wait
    dryRun := false
    force := true }

/-- The dry-run upgrade call built at wheelie.go:121-127. `UpgradeWait` is
not among the options passed there, so `wait` keeps its zero value. -/
def dryRunArgs (w : Wheelie) (rawVals : RawVals) : UpdateArgs :=
  { rlsName := w.Release
    chartPath := w.Chart
    rawVals := rawVals
    disableHooks := w.NoHooks
    timeout := w.Timeout
    wait := false
    dryRun := true
    force := false }

/-- The committing upgrade call built at wheelie.go:147-153. -/
def realUpgradeArgs (w : Wheelie) (rawVals : RawVals) : UpdateArgs :=
  { rlsName := w.Release
    chartPath := w.Chart
    rawVals := rawVals
    disableHooks := w.NoHooks
    timeout := w.Timeout
    wait := w.Wait
    dryRun := false
    force := false }

/-- The delete call built at wheelie.go:187-192. -/
def deleteArgs (w : Wheelie) (purge : Bool) : DeleteArgs :=
  { rlsName := w.Release
    disableHooks := w.NoHooks
    purge := purge
    timeout := w.Timeout }

/-- Manifest extraction at wheelie.go:135-143: with hooks disabled the bare
stored manifest text is parsed, otherwise the full release record is. -/
def selectManifests (env : HelmEnv) (noHooks : Bool) (r : Release) : Manifests :=
  if noHooks then env.parse r.manifest r.nspace else env.parseRelease r

/-- The boolean produced by `diff.DiffManifests` at wheelie.go:145 for a given
current release and dry-run release. -/
def diffResult (env : HelmEnv) (noHooks : Bool) (cur new : Release) : Bool :=
  env.diffManifests (selectManifests env noHooks cur) (selectManifests env noHooks new)

/-- Outcome of a Go `(string, bool, error)` function: a return of message,
changed flag and error, or a runtime panic (nil-pointer dereference). -/
inductive GoOutcome where
  | ret (msg : String) (changed : Bool) (err : Option GoErr)
  | crash
deriving DecidableEq, Repr

/-- Model of `(*Wheelie).EnsureReleasePresent` (wheelie.go:67-160), returning its Go
result and the trace of helm client calls it performs, in order. -/
def EnsureReleasePresent (w : Wheelie) (env : HelmEnv) : GoOutcome × List HelmCall :=
  match env.chartLoad w.Chart with
  | .error e => (.ret "" false (some e), [])
  | .ok chart =>
    match env.marshalValues w.Values with
    | .error e => (.ret "" false (some e), [])
    | .ok rawVals =>
      match env.releaseContent w.Release with
      | .error e =>
        if strContains e (errReleaseNotFound w.Release) then
          -- Release doesn't exist, will install
          match env.installReleaseFromChart (installArgs w chart rawVals) with
          | .error e2 =>
            (.ret "" false (some e2),
             [.releaseContent w.Release, .install (installArgs w chart rawVals)])
          | .ok res =>
            (.ret res.release.info.description true none,
             [.releaseContent w.Release, .install (installArgs w chart rawVals)])
        else
          -- err is non-nil but not the not-found error: the Go code falls
          -- through to line 103 and dereferences the nil releaseResponse
          (.crash, [.releaseContent w.Release])
      | .ok releaseResponse =>
        if releaseResponse.release.info.status = ReleaseStatus.deleted then
          -- Release exists in deleted state, will force update
          match env.updateRelease (forceUpgradeArgs w rawVals) with
          | .error e =>
            (.ret "" false (some e),
             [.releaseContent w.Release, .update (forceUpgradeArgs w rawVals)])
          | .ok res =>
            (.ret res.release.info.description true none,
             [.releaseContent w.Release, .update (forceUpgradeArgs w rawVals)])
        else
          match env.updateRelease (dryRunArgs w rawVals) with
          | .error e =>
            (.ret "" false (some e),
             [.releaseContent w.Release, .update (dryRunArgs w rawVals)])
          | .ok dryRunResponse =>
            if diffResult env w.NoHooks releaseResponse.release dryRunResponse.release then
              match env.updateRelease (realUpgradeArgs w rawVals) with
              | .error e =>
                (.ret "" false (some e),
                 [.releaseContent w.Release, .update (dryRunArgs w rawVals),
                  .update (realUpgradeArgs w rawVals)])
              | .ok res =>
                (.ret res.release.info.description true none,
                 [.releaseContent w.Release, .update (dryRunArgs w rawVals),
                  .update (realUpgradeArgs w rawVals)])
            else
              (.ret "" false none,
               [.releaseContent w.Release, .update (dryRunArgs w rawVals)])

/-- Model of `(*Wheelie).ensureReleaseAbsent` (wheelie.go:172-198). -/
def ensureReleaseAbsent (w : Wheelie) (purge : Bool) (env : HelmEnv) :
    GoOutcome × List HelmCall :=
  match env.releaseContent w.Release with
  | .error e =>
    if strContains e (errReleaseNotFound w.Release) then
      (.ret "" false none, [.releaseContent w.Release])
    else
      -- non-nil error that is not not-found: line 183 dereferences the nil
      -- releaseResponse
      (.crash, [.releaseContent w.Release])
  | .ok releaseResponse =>
    if releaseResponse.release.info.status = ReleaseStatus.deleted && !purge then
      (.ret "" false none, [.releaseContent w.Release])
    else
      match env.deleteRelease (deleteArgs w purge) with
      | .error e =>
        (.ret "" false (some e),
         [.releaseContent w.Release, .delete (deleteArgs w purge)])
      | .ok _ =>
        (.ret ("release " ++ w.Release ++ " deleted") true none,
         [.releaseContent w.Release, .delete (deleteArgs w purge)])

/-- Model of `(*Wheelie).EnsureReleaseAbsent` (wheelie.go:163-165). -/
def EnsureReleaseAbsent (w : Wheelie) (env : HelmEnv) : GoOutcome × List HelmCall :=
  ensureReleaseAbsent w false env

/-- Model of `(*Wheelie).EnsureReleasePurged` (wheelie.go:168-170). -/
def EnsureReleasePurged (w : Wheelie) (env : HelmEnv) : GoOutcome × List HelmCall :=
  ensureReleaseAbsent w true env

/-- A committing mutation call: install, delete, or a non-dry-run upgrade. -/
def isCommit : HelmCall → Bool
  | .install _ => true
  | .update u => !u.dryRun
  | .delete _ => true
  | .releaseContent _ => false

/-- A trial (dry-run) upgrade call. -/
def isTrial : HelmCall → Bool
  | .update u => u.dryRun
  | _ => false

/-- An install call. -/
def isInstallCall : HelmCall → Bool
  | .install _ => true
  | _ => false

/-- The opaque Kubernetes REST config from `kube.GetConfig(...).ClientConfig()`. -/
abbrev KubeConfig := String

/-- The opaque Kubernetes clientset from `kubernetes.NewForConfig`. -/
abbrev KubeClient := String

/-- The external calls made by `ForwardTillerPort`, as an oracle: config
resolution, client construction, and `portforwarder.New` yielding the local
listen port of the created tunnel. -/
structure ForwardEnv where
  clientConfig : String → String → Except GoErr KubeConfig
  newForConfig : KubeConfig → Except GoErr KubeClient
  portforwarderNew : String → KubeClient → KubeConfig → Except GoErr Nat

/-- Model of `(*Wheelie).ForwardTillerPort` (wheelie.go:42-58): returns the struct
after the method (the receiver is mutated only at line 56) and the returned
error, if any. -/
def ForwardTillerPort (w : Wheelie) (env : ForwardEnv) : Wheelie × Option GoErr :=
  match env.clientConfig w.KubeContext w.Kubeconfig with
  | .error e =>
    (w, some ("could not get Kubernetes config for context \"" ++ w.KubeContext
      ++ "\": " ++ e))
  | .ok config =>
    match env.newForConfig config with
    | .error e => (w, some ("could not get Kubernetes client: " ++ e))
    | .ok client =>
      match env.portforwarderNew w.TillerNamespace client config with
      | .error e => (w, some e)
      | .ok port => ({ w with TillerHost := "127.0.0.1:" ++ toString port }, none)

/-- The Ansible `ModuleInput` struct. `Values` is `Option`al because the Go
map may be nil when absent from the input document. -/
structure ModuleInput where
  Kubeconfig : String
  Chart : String
  ChartVersion : String
  Values : Option ValuesMap
  NoHooks : Bool
  NoCRDHook : Bool
  Timeout : Int
  Release : String
  Namespace : String
  State : String
  TillerNamespace : String
  Wait : Bool
deriving DecidableEq, Repr

/-- Model of `(*HelmModule).setDefaultInputs`. -/
def setDefaultInputs (i : ModuleInput) : ModuleInput :=
  let i := if i.State = "" then { i with State := "present" } else i
  let i := if i.Namespace = "" then { i with Namespace := "default" } else i
  let i := if i.Timeout = 0 then { i with Timeout := 300 } else i
  let i := if i.Values = none then { i with Values := some [] } else i
  let i := if i.TillerNamespace = "" then { i with TillerNamespace := "kube-system" } else i
  i

/-- The `Wheelie` value built by `Run` from the (defaulted) module input;
fields not set there keep their Go zero value. -/
def mkWheelie (i : ModuleInput) : Wheelie :=
  { Kubeconfig := i.Kubeconfig
    KubeContext := ""
    Chart := i.Chart
    ChartVersion := i.ChartVersion
    Values := i.Values
    NoHooks := i.NoHooks
    NoCRDHook := i.NoCRDHook
    Timeout := i.Timeout
    Release := i.Release
    Namespace := i.Namespace
    Wait := i.Wait
    TillerNamespace := i.TillerNamespace
    TillerHost := ""
    TillerTimeout := 300 }

/-- The observable fields of the Ansible `ModuleOutput`. -/
structure ModuleOutput where
  Msg : String
  Changed : Bool
  Failed : Bool
deriving DecidableEq, Repr

/-- One externally visible step of a module run: the tiller port-forward
attempt, or a helm backend call. -/
inductive RunEvent where
  | forwardAttempt
  | helm (c : HelmCall)
deriving DecidableEq, Repr

/-- Outcome of a module run: an emitted output document, or a runtime panic. -/
inductive RunOutcome where
  | out (o : ModuleOutput)
  | crash
deriving DecidableEq, Repr

/-- The message of the invalid-state error at part_000 lines 110-111. -/
def stateErrMsg : String :=
  "state must be one of \x27present\x27, \x27absent\x27, or \x27purged\x27"

/-- How `Run` turns an Ensure result into the emitted output (part_000 lines
113-117 plus `succeed`/`fail`): a non-nil error calls `fail` with the error
text, otherwise `succeed` with the message and changed flag; a panic in the
Ensure call crashes the run. The forward attempt is prepended to the trace. -/
def moduleRespond (r : GoOutcome × List HelmCall) : RunOutcome × List RunEvent :=
  let evs := RunEvent.forwardAttempt :: r.2.map RunEvent.helm
  match r.1 with
  | .ret _ _ (some e) => (.out { Msg := e, Changed := false, Failed := true }, evs)
  | .ret msg changed none => (.out { Msg := msg, Changed := changed, Failed := false }, evs)
  | .crash => (.crash, evs)

/-- Model of `(*HelmModule).Run` from the point where the input document has been
parsed (part_000 lines 76-117): apply defaults, build the `Wheelie`, forward
the tiller port, then dispatch on the state. Returns the emitted output and
the trace of external interactions, in order. -/
def runFromInput (input : ModuleInput) (fenv : ForwardEnv) (henv : HelmEnv) :
    RunOutcome × List RunEvent :=
  let i := setDefaultInputs input
  let w := mkWheelie i
  match ForwardTillerPort w fenv with
  | (_, some e) =>
    (.out { Msg := "unable to forward tiller port: " ++ e, Changed := false, Failed := true },
     [.forwardAttempt])
  | (w2, none) =>
    if i.State = "present" then
      moduleRespond (EnsureReleasePresent w2 henv)
    else if i.State = "absent" then
      moduleRespond (EnsureReleaseAbsent w2 henv)
    else if i.State = "purged" then
      moduleRespond (EnsureReleasePurged w2 henv)
    else
      (.out { Msg := stateErrMsg, Changed := false, Failed := true }, [.forwardAttempt])

/-- The spec invariant on one reconciliation result: at most one committing
mutation in the trace, `changed=true` exactly when one committing mutation
ran and the call returned no error, and every error return carries
`changed=false` and an empty message. -/
def changedInvariant (r : GoOutcome × List HelmCall) : Prop :=
  r.2.countP isCommit ≤ 1 ∧
  match r.1 with
  | .ret msg changed e =>
      (changed = true ↔ (r.2.countP isCommit = 1 ∧ e = none)) ∧
      (e.isSome → changed = false ∧ msg = "")
  | .crash => True

/-- A concrete `Wheelie` value used to instantiate the theorems. -/
def wExample : Wheelie :=
  { Kubeconfig := "kc"
    KubeContext := ""
    Chart := "mychart"
    ChartVersion := ""
    Values := some [("replicas", "3")]
    NoHooks := false
    NoCRDHook := false
    Timeout := 60
    Release := "web"
    Namespace := "apps"
    Wait := true
    TillerNamespace := "kube-system"
    TillerHost := "127.0.0.1:44134"
    TillerTimeout := 300 }

/-- A deployed release record for `web`. -/
def rrDeployed : ReleaseResponse :=
  { release := { info := { description := "Deployed", status := .deployed }
                 manifest := "manifest-a", nspace := "apps" } }

/-- A deleted release record for `web`. -/
def rrDeleted : ReleaseResponse :=
  { release := { info := { description := "Deletion complete", status := .deleted }
                 manifest := "manifest-a", nspace := "apps" } }

/-- The backend response to a successful install. -/
def resInstalled : ReleaseResponse :=
  { release := { info := { description := "Install complete", status := .deployed }
                 manifest := "manifest-b", nspace := "apps" } }

/-- The backend response to a successful committing upgrade. -/
def resUpgraded : ReleaseResponse :=
  { release := { info := { description := "Upgrade complete", status := .deployed }
                 manifest := "manifest-b", nspace := "apps" } }

/-- The backend response to the dry-run upgrade, rendering a new manifest. -/
def dresNew : ReleaseResponse :=
  { release := { info := { description := "Dry run complete", status := .deployed }
                 manifest := "manifest-b", nspace := "apps" } }

/-- Environment driving the conditional-upgrade path: the release exists and
is deployed, the dry run renders a manifest that differs from the stored one,
and the committing upgrade succeeds. -/
def envConditional : HelmEnv :=
  { chartLoad := fun _ => .ok "chartdata"
    marshalValues := fun _ => .ok "rawvals"
    releaseContent := fun _ => .ok rrDeployed
    installReleaseFromChart := fun _ => .error "unexpected install"
    updateRelease := fun u => if u.dryRun then .ok dresNew else .ok resUpgraded
    deleteRelease := fun _ => .error "unexpected delete"
    parse := fun m _ => m
    parseRelease := fun r => r.manifest
    diffManifests := fun a b => a != b }

/-- Environment where the release does not exist and installing succeeds. -/
def envInstall : HelmEnv :=
  { chartLoad := fun _ => .ok "chartdata"
    marshalValues := fun _ => .ok "rawvals"
    releaseContent := fun n => .error (errReleaseNotFound n)
    installReleaseFromChart := fun _ => .ok resInstalled
    updateRelease := fun _ => .error "unexpected update"
    deleteRelease := fun _ => .error "unexpected delete"
    parse := fun m _ => m
    parseRelease := fun r => r.manifest
    diffManifests := fun a b => a != b }

/-- Environment where the release exists in deleted state and the forced
upgrade succeeds. -/
def envDeletedState : HelmEnv :=
  { chartLoad := fun _ => .ok "chartdata"
    marshalValues := fun _ => .ok "rawvals"
    releaseContent := fun _ => .ok rrDeleted
    installReleaseFromChart := fun _ => .error "unexpected install"
    updateRelease := fun u => if u.force then .ok resUpgraded else .error "deleted release"
    deleteRelease := fun _ => .error "unexpected delete"
    parse := fun m _ => m
    parseRelease := fun r => r.manifest
    diffManifests := fun a b => a != b }

/-- Environment where the release exists (deployed) and deleting succeeds. -/
def envDelete : HelmEnv :=
  { chartLoad := fun _ => .ok "chartdata"
    marshalValues := fun _ => .ok "rawvals"
    releaseContent := fun _ => .ok rrDeployed
    installReleaseFromChart := fun _ => .error "unexpected install"
    updateRelease := fun _ => .error "unexpected update"
    deleteRelease := fun _ => .ok ()
    parse := fun m _ => m
    parseRelease := fun r => r.manifest
    diffManifests := fun a b => a != b }

/-- Environment where reading the release fails with an error that is not
the not-found condition. -/
def envReadFail : HelmEnv :=
  { chartLoad := fun _ => .ok "chartdata"
    marshalValues := fun _ => .ok "rawvals"
    releaseContent := fun _ => .error "connection refused: transport is closing"
    installReleaseFromChart := fun _ => .error "unexpected install"
    updateRelease := fun _ => .error "unexpected update"
    deleteRelease := fun _ => .error "unexpected delete"
    parse := fun m _ => m
    parseRelease := fun r => r.manifest
    diffManifests := fun a b => a != b }

/-- A module input whose state is none of the three recognized values. -/
def destroyedInput : ModuleInput :=
  { Kubeconfig := "kc"
    Chart := "mychart"
    ChartVersion := ""
    Values := none
    NoHooks := false
    NoCRDHook := false
    Timeout := 0
    Release := "web"
    Namespace := ""
    State := "destroyed"
    TillerNamespace := ""
    Wait := false }

/-- A forwarding environment in which the tunnel is established on port 44134. -/
def fenvOk : ForwardEnv :=
  { clientConfig := fun _ _ => .ok "cfg"
    newForConfig := fun _ => .ok "client"
    portforwarderNew := fun _ _ _ => .ok 44134 }

/-- A forwarding environment in which config resolution fails. -/
def fenvFail : ForwardEnv :=
  { clientConfig := fun _ _ => .error "no kubeconfig"
    newForConfig := fun _ => .ok "client"
    portforwarderNew := fun _ _ _ => .ok 44134 }

/-- Claim C2: with lifecycleGoal=present and the release not found,
`EnsureReleasePresent` performs exactly one install call, carrying the
spec's namespace, hook flags, timeout and wait flag, and on success returns
changed=true with the backend-reported description as the message. -/
theorem claim_C2_install_when_not_found (w : Wheelie) (env : HelmEnv)
    (ch : Chart) (rv : RawVals) (e : GoErr) (res : ReleaseResponse)
    (h1 : env.chartLoad w.Chart = .ok ch)
    (h2 : env.marshalValues w.Values = .ok rv)
    (h3 : env.releaseContent w.Release = .error e)
    (h4 : strContains e (errReleaseNotFound w.Release) = true)
    (h5 : env.installReleaseFromChart (installArgs w ch rv) = .ok res) :
    EnsureReleasePresent w env =
      (.ret res.release.info.description true none,
       [.releaseContent w.Release, .install (installArgs w ch rv)]) ∧
    (EnsureReleasePresent w env).2.countP isInstallCall = 1 ∧
    (EnsureReleasePresent w env).2.countP isCommit = 1 ∧
    (installArgs w ch rv).ns = w.Namespace ∧
    (installArgs w ch rv).disableHooks = w.NoHooks ∧
    (installArgs w ch rv).disableCRDHook = w.NoCRDHook ∧
    (installArgs w ch rv).timeout = w.Timeout ∧
    (installArgs w ch rv).wait = w.Wait := by
  have hmain : EnsureReleasePresent w env =
      (.ret res.release.info.description true none,
       [.releaseContent w.Release, .install (installArgs w ch rv)]) := by
    simp only [EnsureReleasePresent, h1, h2, h3, h4, h5, if_true]
  refine ⟨hmain, ?_, ?_, rfl, rfl, rfl, rfl, rfl⟩ <;>
    simp [hmain, isInstallCall, isCommit]

/-- Witness for claim C2 at a concrete input. -/
theorem claim_C2_witness :
    EnsureReleasePresent wExample envInstall =
      (.ret "Install complete" true none,
       [.releaseContent "web", .install (installArgs wExample "chartdata" "rawvals")]) :=
  (claim_C2_install_when_not_found wExample envInstall "chartdata" "rawvals"
    (errReleaseNotFound "web") resInstalled rfl rfl rfl (by decide) rfl).1

/-- Claim C3: with lifecycleGoal=present, the release found, and its status
deleted, `EnsureReleasePresent` performs exactly one upgrade call with
force=true, no install call, and on success returns changed=true. -/
theorem claim_C3_force_upgrade_when_deleted (w : Wheelie) (env : HelmEnv)
    (ch : Chart) (rv : RawVals) (rr res : ReleaseResponse)
    (h1 : env.chartLoad w.Chart = .ok ch)
    (h2 : env.marshalValues w.Values = .ok rv)
    (h3 : env.releaseContent w.Release = .ok rr)
    (h4 : rr.release.info.status = ReleaseStatus.deleted)
    (h5 : env.updateRelease (forceUpgradeArgs w rv) = .ok res) :
    EnsureReleasePresent w env =
      (.ret res.release.info.description true none,
       [.releaseContent w.Release, .update (forceUpgradeArgs w rv)]) ∧
    (forceUpgradeArgs w rv).force = true ∧
    (forceUpgradeArgs w rv).dryRun = false ∧
    (EnsureReleasePresent w env).2.countP isInstallCall = 0 ∧
    (EnsureReleasePresent w env).2.countP isCommit = 1 := by
  have hmain : EnsureReleasePresent w env =
      (.ret res.release.info.description true none,
       [.releaseContent w.Release, .update (forceUpgradeArgs w rv)]) := by
    simp only [EnsureReleasePresent, h1, h2, h3, h4, h5, if_true]
  refine ⟨hmain, rfl, rfl, ?_, ?_⟩ <;>
    simp [hmain, isInstallCall, isCommit, forceUpgradeArgs]

/-- Witness for claim C3 at a concrete input. -/
theorem claim_C3_witness :
    EnsureReleasePresent wExample envDeletedState =
      (.ret "Upgrade complete" true none,
       [.releaseContent "web", .update (forceUpgradeArgs wExample "rawvals")]) :=
  (claim_C3_force_upgrade_when_deleted wExample envDeletedState "chartdata" "rawvals"
    rrDeleted resUpgraded rfl rfl rfl rfl rfl).1

/-- Claim C1: with lifecycleGoal=present, the release found and not deleted,
`EnsureReleasePresent` performs exactly one trial (dry-run) upgrade, then a
real non-forced non-dry upgrade exactly when the differ reports differences;
with no differences it makes zero committing calls and returns changed=false
with an empty message, and with differences it returns changed=true on
success. -/
theorem claim_C1_conditional_upgrade (w : Wheelie) (env : HelmEnv)
    (ch : Chart) (rv : RawVals) (rr dres : ReleaseResponse)
    (h1 : env.chartLoad w.Chart = .ok ch)
    (h2 : env.marshalValues w.Values = .ok rv)
    (h3 : env.releaseContent w.Release = .ok rr)
    (h4 : rr.release.info.status ≠ ReleaseStatus.deleted)
    (h5 : env.updateRelease (dryRunArgs w rv) = .ok dres) :
    (EnsureReleasePresent w env).2.countP isTrial = 1 ∧
    (diffResult env w.NoHooks rr.release dres.release = false →
      EnsureReleasePresent w env =
        (.ret "" false none,
         [.releaseContent w.Release, .update (dryRunArgs w rv)]) ∧
      (EnsureReleasePresent w env).2.countP isCommit = 0) ∧
    (diffResult env w.NoHooks rr.release dres.release = true →
      (EnsureReleasePresent w env).2 =
        [.releaseContent w.Release, .update (dryRunArgs w rv),
         .update (realUpgradeArgs w rv)] ∧
      (realUpgradeArgs w rv).dryRun = false ∧
      (realUpgradeArgs w rv).force = false ∧
      (EnsureReleasePresent w env).2.countP isCommit = 1 ∧
      ∀ res, env.updateRelease (realUpgradeArgs w rv) = .ok res →
        (EnsureReleasePresent w env).1 = .ret res.release.info.description true none) := by
  cases hd : diffResult env w.NoHooks rr.release dres.release with
  | false =>
    have hmain : EnsureReleasePresent w env =
        (.ret "" false none,
         [.releaseContent w.Release, .update (dryRunArgs w rv)]) := by
      simp only [EnsureReleasePresent, h1, h2, h3, h5, if_neg h4, hd]
      simp
    refine ⟨by simp [hmain, isTrial, dryRunArgs], ?_, ?_⟩
    · intro _
      exact ⟨hmain, by simp [hmain, isCommit, dryRunArgs]⟩
    · intro hcontra
      simp [hd] at hcontra
  | true =>
    cases hu : env.updateRelease (realUpgradeArgs w rv) with
    | error e =>
      have hmain : EnsureReleasePresent w env =
          (.ret "" false (some e),
           [.releaseContent w.Release, .update (dryRunArgs w rv),
            .update (realUpgradeArgs w rv)]) := by
        simp only [EnsureReleasePresent, h1, h2, h3, h5, if_neg h4, hd, if_true, hu]
      refine ⟨by simp [hmain, isTrial, dryRunArgs, realUpgradeArgs], ?_, ?_⟩
      · intro hcontra; simp [hd] at hcontra
      · intro _
        refine ⟨by simp [hmain], rfl, rfl,
          by simp [hmain, isCommit, dryRunArgs, realUpgradeArgs], ?_⟩
        intro res hres
        exact absurd hres (by simp)
    | ok res =>
      have hmain : EnsureReleasePresent w env =
          (.ret res.release.info.description true none,
           [.releaseContent w.Release, .update (dryRunArgs w rv),
            .update (realUpgradeArgs w rv)]) := by
        simp only [EnsureReleasePresent, h1, h2, h3, h5, if_neg h4, hd, if_true, hu]
      refine ⟨by simp [hmain, isTrial, dryRunArgs, realUpgradeArgs], ?_, ?_⟩
      · intro hcontra; simp [hd] at hcontra
      · intro _
        refine ⟨by simp [hmain], rfl, rfl,
          by simp [hmain, isCommit, dryRunArgs, realUpgradeArgs], ?_⟩
        intro res2 hres2
        simp only [hu, Except.ok.injEq] at hres2
        subst hres2
        simp [hmain]

/-- Witness for claim C1 at a concrete input where the differ reports
differences and the committing upgrade succeeds. -/
theorem claim_C1_witness :
    (EnsureReleasePresent wExample envConditional).2.countP isTrial = 1 ∧
    (EnsureReleasePresent wExample envConditional).1 =
      .ret "Upgrade complete" true none := by
  have h := claim_C1_conditional_upgrade wExample envConditional "chartdata" "rawvals"
    rrDeployed dresNew rfl rfl rfl (by decide) rfl
  exact ⟨h.1, (h.2.2 (by decide)).2.2.2.2 resUpgraded rfl⟩

/-- Claim C4: for lifecycleGoal absent or purged: release not found means
zero mutation calls and changed=false; status deleted with a non-purging
goal means zero mutation calls and changed=false; every other found case
makes exactly one delete call with purge equal to (goal = purged), and on
success returns changed=true with a message naming the release and stating
it was deleted. -/
theorem claim_C4_absent_purged (w : Wheelie) (purge : Bool) (env : HelmEnv) :
    EnsureReleaseAbsent w env = ensureReleaseAbsent w false env ∧
    EnsureReleasePurged w env = ensureReleaseAbsent w true env ∧
    (∀ e, env.releaseContent w.Release = .error e →
      strContains e (errReleaseNotFound w.Release) = true →
      ensureReleaseAbsent w purge env = (.ret "" false none, [.releaseContent w.Release]) ∧
      (ensureReleaseAbsent w purge env).2.countP isCommit = 0) ∧
    (∀ rr, env.releaseContent w.Release = .ok rr →
      rr.release.info.status = ReleaseStatus.deleted → purge = false →
      ensureReleaseAbsent w purge env = (.ret "" false none, [.releaseContent w.Release]) ∧
      (ensureReleaseAbsent w purge env).2.countP isCommit = 0) ∧
    (∀ rr, env.releaseContent w.Release = .ok rr →
      ¬(rr.release.info.status = ReleaseStatus.deleted ∧ purge = false) →
      (ensureReleaseAbsent w purge env).2 =
        [.releaseContent w.Release, .delete (deleteArgs w purge)] ∧
      (ensureReleaseAbsent w purge env).2.countP isCommit = 1 ∧
      (deleteArgs w purge).purge = purge ∧
      (∀ u, env.deleteRelease (deleteArgs w purge) = .ok u →
        (ensureReleaseAbsent w purge env).1 =
          .ret ("release " ++ w.Release ++ " deleted") true none)) := by
  refine ⟨rfl, rfl, ?_, ?_, ?_⟩
  · intro e h3 h4
    have hmain : ensureReleaseAbsent w purge env =
        (.ret "" false none, [.releaseContent w.Release]) := by
      simp only [ensureReleaseAbsent, h3, h4, if_true]
    exact ⟨hmain, by simp [hmain, isCommit]⟩
  · intro rr h3 h4 h5
    have hmain : ensureReleaseAbsent w purge env =
        (.ret "" false none, [.releaseContent w.Release]) := by
      simp only [ensureReleaseAbsent, h3, h4, h5]
      simp
    exact ⟨hmain, by simp [hmain, isCommit]⟩
  · intro rr h3 h4
    have hcond : (rr.release.info.status = ReleaseStatus.deleted && !purge) = false := by
      rcases Decidable.em (rr.release.info.status = ReleaseStatus.deleted) with hs | hs
      · have hp : purge = true := by
          rcases Bool.eq_false_or_eq_true purge with hp | hp
          · exact hp
          · exact absurd ⟨hs, hp⟩ h4
        simp [hs, hp]
      · simp [hs]
    cases hu : env.deleteRelease (deleteArgs w purge) with
    | error e =>
      have hmain : ensureReleaseAbsent w purge env =
          (.ret "" false (some e),
           [.releaseContent w.Release, .delete (deleteArgs w purge)]) := by
        simp only [ensureReleaseAbsent, h3, hcond, hu]
        simp
      refine ⟨by simp [hmain], by simp [hmain, isCommit], rfl, ?_⟩
      intro u hres
      exact absurd hres (by simp)
    | ok u0 =>
      have hmain : ensureReleaseAbsent w purge env =
          (.ret ("release " ++ w.Release ++ " deleted") true none,
           [.releaseContent w.Release, .delete (deleteArgs w purge)]) := by
        simp only [ensureReleaseAbsent, h3, hcond, hu]
        simp
      refine ⟨by simp [hmain], by simp [hmain, isCommit], rfl, ?_⟩
      intro u hres
      simp [hmain]

/-- Witness for claim C4 at a concrete input: a purging delete of an
existing deployed release. -/
theorem claim_C4_witness :
    (ensureReleaseAbsent wExample true envDelete).2 =
      [.releaseContent "web", .delete (deleteArgs wExample true)] ∧
    (ensureReleaseAbsent wExample true envDelete).1 =
      .ret "release web deleted" true none := by
  have h := (claim_C4_absent_purged wExample true envDelete).2.2.2.2
    rrDeployed rfl (by decide)
  exact ⟨h.1, h.2.2.2 () rfl⟩

lemma changedInvariant_present (w : Wheelie) (env : HelmEnv) :
    changedInvariant (EnsureReleasePresent w env) := by
  unfold changedInvariant EnsureReleasePresent
  repeat' split
  all_goals
    try simp_all [isCommit, List.countP_cons, List.countP_nil,
      dryRunArgs, realUpgradeArgs, forceUpgradeArgs]
  all_goals
    obtain ⟨-, -, rfl⟩ := ‹_ ∧ _ ∧ _›
  all_goals simp

lemma changedInvariant_absent (w : Wheelie) (purge : Bool) (env : HelmEnv) :
    changedInvariant (ensureReleaseAbsent w purge env) := by
  unfold changedInvariant ensureReleaseAbsent
  repeat' split
  all_goals
    try simp_all [isCommit, List.countP_cons, List.countP_nil]
  all_goals
    obtain ⟨-, -, rfl⟩ := ‹_ ∧ _ ∧ _›
  all_goals simp

/-- Claim C7: every reconciliation call performs at most one committing
mutation, and the changed flag is true exactly when one committing mutation
ran and the call succeeded; error returns and no-op returns have
changed=false. -/
theorem claim_C7_invariants (w : Wheelie) (env : HelmEnv) :
    changedInvariant (EnsureReleasePresent w env) ∧
    changedInvariant (EnsureReleaseAbsent w env) ∧
    changedInvariant (EnsureReleasePurged w env) :=
  ⟨changedInvariant_present w env,
   changedInvariant_absent w false env,
   changedInvariant_absent w true env⟩

/-- Claim C9: `setDefaultInputs` is total (it is a function), idempotent,
maps each absent/zero field independently to its default — empty state to
present, empty namespace to default, timeout 0 to 300, nil values to an
empty mapping, empty tiller namespace to kube-system — and leaves populated
fields and all other fields unchanged. -/
theorem claim_C9_defaults (i : ModuleInput) :
    setDefaultInputs (setDefaultInputs i) = setDefaultInputs i ∧
    (setDefaultInputs i).State = (if i.State = "" then "present" else i.State) ∧
    (setDefaultInputs i).Namespace = (if i.Namespace = "" then "default" else i.Namespace) ∧
    (setDefaultInputs i).Timeout = (if i.Timeout = 0 then 300 else i.Timeout) ∧
    (setDefaultInputs i).Values = (if i.Values = none then some [] else i.Values) ∧
    (setDefaultInputs i).TillerNamespace =
      (if i.TillerNamespace = "" then "kube-system" else i.TillerNamespace) ∧
    (setDefaultInputs i).Kubeconfig = i.Kubeconfig ∧
    (setDefaultInputs i).Chart = i.Chart ∧
    (setDefaultInputs i).ChartVersion = i.ChartVersion ∧
    (setDefaultInputs i).NoHooks = i.NoHooks ∧
    (setDefaultInputs i).NoCRDHook = i.NoCRDHook ∧
    (setDefaultInputs i).Release = i.Release ∧
    (setDefaultInputs i).Wait = i.Wait := by
  by_cases hs : i.State = "" <;>
    by_cases hn : i.Namespace = "" <;>
      by_cases ht : i.Timeout = 0 <;>
        by_cases hv : i.Values = none <;>
          by_cases htn : i.TillerNamespace = "" <;>
            simp_all [setDefaultInputs]

/-- Claim C10: a successful `ForwardTillerPort` changes only the TillerHost
field, setting it to `127.0.0.1:<port>` for the selected local port; on
error the struct is unchanged. -/
theorem claim_C10_forward_frame (w : Wheelie) (env : ForwardEnv) :
    ((ForwardTillerPort w env).2.isSome → (ForwardTillerPort w env).1 = w) ∧
    ((ForwardTillerPort w env).2 = none →
      ∃ port : Nat, (ForwardTillerPort w env).1 =
        { w with TillerHost := "127.0.0.1:" ++ toString port }) := by
  unfold ForwardTillerPort
  rcases hc : env.clientConfig w.KubeContext w.Kubeconfig with e | config
  · exact ⟨fun _ => rfl, fun h => by simp at h⟩
  · dsimp only
    rcases hn : env.newForConfig config with e | client
    · exact ⟨fun _ => rfl, fun h => by simp at h⟩
    · dsimp only
      rcases hp : env.portforwarderNew w.TillerNamespace client config with e | port
      · exact ⟨fun _ => rfl, fun h => by simp at h⟩
      · exact ⟨fun h => by simp at h, fun _ => ⟨port, rfl⟩⟩

/-- Witness for claim C10 at a concrete input: the tunnel lands on port
44134 and only TillerHost changes. -/
theorem claim_C10_witness :
    (∃ port : Nat, (ForwardTillerPort wExample fenvOk).1 =
      { wExample with TillerHost := "127.0.0.1:" ++ toString port }) ∧
    (ForwardTillerPort { wExample with TillerHost := "unset" } fenvFail).1 =
      { wExample with TillerHost := "unset" } :=
  ⟨(claim_C10_forward_frame wExample fenvOk).2 rfl,
   (claim_C10_forward_frame { wExample with TillerHost := "unset" } fenvFail).1 rfl⟩

/-- Claim C6 (code bug evaluation): when the release read fails with an
error that is not the not-found condition, neither reconciliation surfaces
the error as a return value; the Go code falls through the not-found test
and dereferences the nil release response, modeled as a crash. -/
theorem claim_C6_read_error_not_surfaced :
    EnsureReleasePresent wExample envReadFail = (.crash, [.releaseContent "web"]) ∧
    EnsureReleaseAbsent wExample envReadFail = (.crash, [.releaseContent "web"]) ∧
    EnsureReleasePurged wExample envReadFail = (.crash, [.releaseContent "web"]) := by
  refine ⟨?_, ?_, ?_⟩ <;> decide

/-- Counterexample to claim C5 as stated: with an unrecognized state the
module still attempts the tiller port-forward before reporting the
configuration error, and when the port-forward fails the configuration
error is never produced at all. -/
theorem claim_C5_counterexample :
    (runFromInput destroyedInput fenvOk envReadFail).1 =
      .out { Msg := stateErrMsg, Changed := false, Failed := true } ∧
    (runFromInput destroyedInput fenvOk envReadFail).2 = [.forwardAttempt] ∧
    (runFromInput destroyedInput fenvFail envReadFail).1 =
      .out { Msg := "unable to forward tiller port: could not get Kubernetes config for context \"\": no kubeconfig",
             Changed := false, Failed := true } := by
  refine ⟨?_, ?_, ?_⟩ <;> decide

/-- Claim C5 (amended): an unrecognized lifecycle state yields the
configuration error before any release read or mutation call — no helm
backend call occurs — but only after the tiller port-forward has been
attempted; when the port-forward fails, its connectivity error is reported
instead of the configuration error. -/
theorem claim_C5_amended_config_error (input : ModuleInput) (fenv : ForwardEnv)
    (henv : HelmEnv)
    (h1 : (setDefaultInputs input).State ≠ "present")
    (h2 : (setDefaultInputs input).State ≠ "absent")
    (h3 : (setDefaultInputs input).State ≠ "purged") :
    (runFromInput input fenv henv).2 = [.forwardAttempt] ∧
    (∀ c, RunEvent.helm c ∉ (runFromInput input fenv henv).2) ∧
    ((ForwardTillerPort (mkWheelie (setDefaultInputs input)) fenv).2 = none →
      (runFromInput input fenv henv).1 =
        .out { Msg := stateErrMsg, Changed := false, Failed := true }) ∧
    (∀ e, (ForwardTillerPort (mkWheelie (setDefaultInputs input)) fenv).2 = some e →
      (runFromInput input fenv henv).1 =
        .out { Msg := "unable to forward tiller port: " ++ e,
               Changed := false, Failed := true }) := by
  simp only [runFromInput]
  rcases hf : ForwardTillerPort (mkWheelie (setDefaultInputs input)) fenv with ⟨w2, oe⟩
  cases oe with
  | some e =>
    refine ⟨rfl, by simp, ?_, ?_⟩
    · intro hnone
      simp at hnone
    · intro e2 he2
      simp at he2
      rw [he2]
  | none =>
    simp only [if_neg h1, if_neg h2, if_neg h3]
    refine ⟨?_, ?_, ?_, ?_⟩ <;> simp

/-- Witness for the amended claim C5 at a concrete input. -/
theorem claim_C5_witness :
    (runFromInput destroyedInput fenvOk envReadFail).2 = [.forwardAttempt] ∧
    (runFromInput destroyedInput fenvOk envReadFail).1 =
      .out { Msg := stateErrMsg, Changed := false, Failed := true } := by
  have h := claim_C5_amended_config_error destroyedInput fenvOk envReadFail
    (by decide) (by decide) (by decide)
  exact ⟨h.1, h.2.2.1 rfl⟩

/-- Counterexample to claim C8 as stated: with waitForReady set, the trial
call and the committing upgrade call differ in the wait flag as well as the
dry-run flag — the trial is issued with wait=false while the committing
upgrade is issued with wait=true. -/
theorem claim_C8_counterexample :
    (EnsureReleasePresent wExample envConditional).2 =
      [.releaseContent "web", .update (dryRunArgs wExample "rawvals"),
       .update (realUpgradeArgs wExample "rawvals")] ∧
    wExample.Wait = true ∧
    (dryRunArgs wExample "rawvals").wait = false ∧
    (realUpgradeArgs wExample "rawvals").wait = true ∧
    dryRunArgs wExample "rawvals" ≠
      { realUpgradeArgs wExample "rawvals" with dryRun := true } := by
  refine ⟨?_, rfl, rfl, rfl, ?_⟩ <;> decide

/-- Claim C8 (amended): in the conditional-upgrade path the trial call uses
the same release name, chart path, serialized values, hook-disable flag and
timeout as the committing upgrade and neither call is forced, but the two
differ in the dry-run flag and, whenever the spec's wait flag is set, also
in the wait flag: the trial always passes wait=false while the committing
upgrade passes the spec's wait flag. -/
theorem claim_C8_amended_trial_inputs (w : Wheelie) (env : HelmEnv)
    (ch : Chart) (rv : RawVals) (rr dres : ReleaseResponse)
    (h1 : env.chartLoad w.Chart = .ok ch)
    (h2 : env.marshalValues w.Values = .ok rv)
    (h3 : env.releaseContent w.Release = .ok rr)
    (h4 : rr.release.info.status ≠ ReleaseStatus.deleted)
    (h5 : env.updateRelease (dryRunArgs w rv) = .ok dres)
    (h6 : diffResult env w.NoHooks rr.release dres.release = true) :
    (EnsureReleasePresent w env).2 =
      [.releaseContent w.Release, .update (dryRunArgs w rv),
       .update (realUpgradeArgs w rv)] ∧
    (dryRunArgs w rv).rlsName = (realUpgradeArgs w rv).rlsName ∧
    (dryRunArgs w rv).chartPath = (realUpgradeArgs w rv).chartPath ∧
    (dryRunArgs w rv).rawVals = (realUpgradeArgs w rv).rawVals ∧
    (dryRunArgs w rv).disableHooks = (realUpgradeArgs w rv).disableHooks ∧
    (dryRunArgs w rv).timeout = (realUpgradeArgs w rv).timeout ∧
    (dryRunArgs w rv).dryRun = true ∧
    (realUpgradeArgs w rv).dryRun = false ∧
    (dryRunArgs w rv).force = false ∧
    (realUpgradeArgs w rv).force = false ∧
    (dryRunArgs w rv).wait = false ∧
    (realUpgradeArgs w rv).wait = w.Wait := by
  refine ⟨?_, rfl, rfl, rfl, rfl, rfl, rfl, rfl, rfl, rfl, rfl, rfl⟩
  cases hu : env.updateRelease (realUpgradeArgs w rv) with
  | error e =>
    simp only [EnsureReleasePresent, h1, h2, h3, h5, if_neg h4, h6, hu]
    simp
  | ok res =>
    simp only [EnsureReleasePresent, h1, h2, h3, h5, if_neg h4, h6, hu]
    simp

/-- Witness for the amended claim C8 at a concrete input. -/
theorem claim_C8_witness :
    (EnsureReleasePresent wExample envConditional).2 =
      [.releaseContent "web", .update (dryRunArgs wExample "rawvals"),
       .update (realUpgradeArgs wExample "rawvals")] ∧
    (dryRunArgs wExample "rawvals").wait = false ∧
    (realUpgradeArgs wExample "rawvals").wait = wExample.Wait := by
  have h := claim_C8_amended_trial_inputs wExample envConditional "chartdata" "rawvals"
    rrDeployed dresNew rfl rfl rfl (by decide) rfl (by decide)
  exact ⟨h.1, h.2.2.2.2.2.2.2.2.2.2.1, h.2.2.2.2.2.2.2.2.2.2.2⟩

/-- Witness for claim C7 at a concrete input. -/
theorem claim_C7_witness :
    changedInvariant (EnsureReleasePresent wExample envConditional) :=
  (claim_C7_invariants wExample envConditional).1

/-- Witness for claim C9 at a concrete input. -/
theorem claim_C9_witness :
    setDefaultInputs (setDefaultInputs destroyedInput) = setDefaultInputs destroyedInput ∧
    (setDefaultInputs destroyedInput).Namespace = "default" :=
  ⟨(claim_C9_defaults destroyedInput).1,
   (claim_C9_defaults destroyedInput).2.2.1⟩
